import Mathlib

/-!
Verification of the agent-loop core of the Creative Content Studio client.

The source consists of two near-duplicate Python clients:
`src/Python-Application/content-studio-client.py` (version 1) and
`src/Python_Application/content_studio_client.py` (version 2).  Both define a
`ContentStudioAgent` class with `call_tool` and `process_query`; version 1
additionally defines `format_tools_for_claude`, which version 2 lacks even
though its `process_query` calls it.

The embedding below translates those methods into pure Lean functions.  The
external collaborators (the MCP tool host reached through `self.session` and
the Anthropic model backend reached through `anthropic_client.messages.create`)
are parameters: a `ToolHost` function describing how each tool invocation
behaves, and a `responses` function giving the backend's reply on each loop
iteration.  Python exceptions inside `call_tool` are modelled by the
`HostBehavior.raised` constructor and by the `nonText` content variant, whose
`text` attribute access raises `AttributeError` exactly as duck-typed access
does in Python.  The loop additionally threads two observational traces that
the Python code performs as side effects: the number of model-backend requests
issued and the list of tool-host invocations made, so that claims such as
"no tool is invoked" are expressible.
-/

/-- A tool descriptor as obtained from MCP discovery
(`response.tools`; fields `name`, `description`, `inputSchema`). -/
structure ToolDescriptor where
  name : String
  description : String
  inputSchema : String
deriving DecidableEq

/-- A tool in Claude API format, as built by `format_tools_for_claude`:
`\x7b"name": ..., "description": ..., "input_schema": ...\x7d`. -/
structure ClaudeTool where
  name : String
  description : String
  input_schema : String
deriving DecidableEq

/-- `ContentStudioAgent.format_tools_for_claude` (version 1, lines 33-45):
starts from an empty `claude_tools` list and appends one converted record per
catalog entry, in catalog order. -/
def format_tools_for_claude (available_tools : List ToolDescriptor) : List ClaudeTool :=
  available_tools.foldl
    (fun claude_tools tool =>
      claude_tools ++ [⟨tool.name, tool.description, tool.inputSchema⟩])
    []

/-- One element of an MCP call result's `content` list.  `textItem t` is a
text-bearing element (`element.text = t`).  `nonText m` is an element with no
`text` attribute; accessing `.text` on it raises an `AttributeError` whose
`str` is `m`. -/
inductive McpContentItem where
  | textItem (text : String)
  | nonText (attrErrMessage : String)
deriving DecidableEq

/-- A structured result returned by `session.call_tool`.  `content = none`
models a result object with no `content` attribute (`hasattr` is false);
`toString` is Python's `str(result)`. -/
structure McpCallResult where
  content : Option (List McpContentItem)
  toString : String
deriving DecidableEq

/-- Behaviour of one tool-host invocation: either a structured result is
returned, or the awaited call raises an exception whose `str` is `msg`. -/
inductive HostBehavior where
  | ok (result : McpCallResult)
  | raised (msg : String)
deriving DecidableEq

/-- The tool host as seen through `self.session.call_tool`: a behaviour for
every tool name and (JSON-encoded) input. -/
def ToolHost : Type := String → String → HostBehavior

/-- Minimal JSON string escaping as performed by `json.dumps` on the message
value (backslash and double quote, applied per character of the message; the
messages at issue contain no control characters). -/
def json_escape (s : String) : String :=
  s.data.foldl
    (fun acc c =>
      if c = '\\' then acc ++ "\\\\"
      else if c = '"' then acc ++ "\\\""
      else acc ++ String.singleton c)
    ""

/-- The string produced by
`json.dumps(\x7b"status": "error", "message": f"Tool execution failed: \x7bstr(e)\x7d"\x7d)`
in the `except` branch of `call_tool`. -/
def error_payload (e : String) : String :=
  "\x7b\"status\": \"error\", \"message\": \"" ++
    json_escape ("Tool execution failed: " ++ e) ++ "\"\x7d"

/-- `ContentStudioAgent.call_tool` (identical in both versions): awaits
`session.call_tool(tool_name, arguments=tool_input)` inside a `try`; on a
result with a non-empty `content` list returns `result.content[0].text`
(an `AttributeError` from that attribute access is caught by the same
`except`); otherwise returns `str(result)`; any exception is converted to the
serialized error payload. -/
def call_tool (session : ToolHost) (tool_name : String) (tool_input : String) : String :=
  match session tool_name tool_input with
  | .raised e => error_payload e
  | .ok result =>
    match result.content with
    | some (first :: _) =>
      match first with
      | .textItem t => t
      | .nonText m => error_payload m
    | some [] => result.toString
    | none => result.toString

/-- A content block of a model-backend response.  `text` blocks carry a
`text` attribute; `tool_use` blocks carry `id`, `name` and `input` and have
no `text` attribute. -/
inductive ContentBlock where
  | text (text : String)
  | tool_use (id : String) (name : String) (input : String)
deriving DecidableEq

/-- A `tool_result` entry as built in `process_query`:
`\x7b"type": "tool_result", "tool_use_id": block.id, "content": result\x7d`. -/
structure ToolResultBlock where
  tool_use_id : String
  content : String
deriving DecidableEq

/-- The `content` field of a transcript message: the initial user message
carries plain text, an appended assistant message carries the response's
content blocks, and a tool-results message carries `tool_result` entries. -/
inductive MessageContent where
  | plainText (s : String)
  | blocks (bs : List ContentBlock)
  | toolResults (rs : List ToolResultBlock)
deriving DecidableEq

/-- One message of the `messages` transcript. -/
structure Message where
  role : String
  content : MessageContent
deriving DecidableEq

/-- A model-backend response: `response.stop_reason` and `response.content`. -/
structure ModelResponse where
  stop_reason : String
  content : List ContentBlock
deriving DecidableEq

/-- The `for block in response.content` dispatch loop of `process_query`:
for each `tool_use` block, in order, invoke `call_tool` and append a
`tool_result` entry.  Returns the collected `tool_results` list together
with the trace of tool-host invocations `(name, input)` made, in order. -/
def dispatch_tools (session : ToolHost) :
    List ContentBlock → List ToolResultBlock × List (String × String)
  | [] => ([], [])
  | block :: rest =>
    match block with
    | .text _ => dispatch_tools session rest
    | .tool_use id name input =>
      let result := call_tool session name input
      let (rs, calls) := dispatch_tools session rest
      (⟨id, result⟩ :: rs, (name, input) :: calls)

/-- The `end_turn` branch of `process_query`: start from the empty string and
concatenate `block.text` for every block that has a `text` attribute, in
arrival order. -/
def extract_final_response (blocks : List ContentBlock) : String :=
  blocks.foldl
    (fun final_response block =>
      match block with
      | .text t => final_response ++ t
      | .tool_use _ _ _ => final_response)
    ""

/-- Terminal outcome of `process_query`, one constructor per `return`
statement: `completed t` is the `end_turn` return of the concatenated text,
`exhausted` the fall-through return after the `for` loop, and
`failed r` the `else` return for an unrecognized stop reason. -/
inductive AgentOutcome where
  | completed (text : String)
  | exhausted
  | failed (stop_reason : String)
deriving DecidableEq

/-- The exact string each outcome is rendered to by the corresponding
`return` statement in `process_query`. -/
def AgentOutcome.render : AgentOutcome → String
  | .completed t => t
  | .exhausted => "Agent reached maximum iterations without completing task"
  | .failed r => "Agent stopped unexpectedly: " ++ r

/-- Result of a `process_query` run: the outcome, the final `messages`
transcript, and the two observational traces (number of
`anthropic_client.messages.create` requests issued; tool-host invocations
made, in order). -/
structure LoopResult where
  outcome : AgentOutcome
  messages : List Message
  backend_calls : Nat
  host_calls : List (String × String)
deriving DecidableEq

/-- The `for iteration in range(max_iterations)` loop of `process_query`
(version 1).  `responses it tools` is the backend's reply to the request of
iteration `it`, which carries `tools = format_tools_for_claude available_tools`;
`remaining` counts the iterations left in the range. -/
def process_query_loop (responses : Nat → List ClaudeTool → ModelResponse)
    (session : ToolHost) (available_tools : List ToolDescriptor)
    (iteration remaining : Nat) (messages : List Message)
    (backend_calls : Nat) (host_calls : List (String × String)) : LoopResult :=
  match remaining with
  | 0 => ⟨.exhausted, messages, backend_calls, host_calls⟩
  | remaining' + 1 =>
    let response := responses iteration (format_tools_for_claude available_tools)
    if response.stop_reason = "tool_use" then
      let messages₁ := messages ++ [⟨"assistant", .blocks response.content⟩]
      let (tool_results, calls) := dispatch_tools session response.content
      let messages₂ := messages₁ ++ [⟨"user", .toolResults tool_results⟩]
      process_query_loop responses session available_tools (iteration + 1) remaining'
        messages₂ (backend_calls + 1) (host_calls ++ calls)
    else if response.stop_reason = "end_turn" then
      ⟨.completed (extract_final_response response.content), messages,
        backend_calls + 1, host_calls⟩
    else
      ⟨.failed response.stop_reason, messages, backend_calls + 1, host_calls⟩

/-- `ContentStudioAgent.process_query` (version 1, lines 61-149): build the
fresh transcript holding the single user message, then run the reasoning
loop for at most `max_iterations` iterations. -/
def process_query (responses : Nat → List ClaudeTool → ModelResponse)
    (session : ToolHost) (available_tools : List ToolDescriptor)
    (user_query : String) (max_iterations : Nat) : LoopResult :=
  process_query_loop responses session available_tools 0 max_iterations
    [⟨"user", .plainText user_query⟩] 0 []

/-- The attributes available on a `ContentStudioAgent` instance in version 2
(`src/Python_Application/content_studio_client.py`): the two instance
attributes set in `__init__` plus the methods defined in the class body
(lines 34-212).  `format_tools_for_claude` is not among them. -/
def v2_agent_attributes : List String :=
  ["session", "available_tools", "connect_to_server", "call_tool",
   "process_query", "cleanup", "interactive_mode"]

/-- Result of running version 2's `process_query`: either a value is
returned, or an `AttributeError` for the named attribute propagates out;
the error constructor records how many model-backend requests and which
tool-host invocations had been made when it was raised. -/
inductive PyResult (α : Type) where
  | value (a : α)
  | attributeError (attr : String) (backend_calls : Nat)
      (host_calls : List (String × String))
deriving DecidableEq

/-- The reasoning loop of version 2's `process_query` (lines 105-167).  The
loop body is textually identical to version 1's, but the call
`self.format_tools_for_claude()` first performs an attribute lookup on the
instance; in version 2 the lookup fails and the `AttributeError` propagates
before the backend request of that iteration is issued. -/
def process_query_v2_loop (responses : Nat → List ClaudeTool → ModelResponse)
    (session : ToolHost) (available_tools : List ToolDescriptor)
    (iteration remaining : Nat) (messages : List Message)
    (backend_calls : Nat) (host_calls : List (String × String)) :
    PyResult LoopResult :=
  match remaining with
  | 0 => .value ⟨.exhausted, messages, backend_calls, host_calls⟩
  | remaining' + 1 =>
    if v2_agent_attributes.contains "format_tools_for_claude" then
      let response := responses iteration (format_tools_for_claude available_tools)
      if response.stop_reason = "tool_use" then
        let messages₁ := messages ++ [⟨"assistant", .blocks response.content⟩]
        let (tool_results, calls) := dispatch_tools session response.content
        let messages₂ := messages₁ ++ [⟨"user", .toolResults tool_results⟩]
        process_query_v2_loop responses session available_tools (iteration + 1) remaining'
          messages₂ (backend_calls + 1) (host_calls ++ calls)
      else if response.stop_reason = "end_turn" then
        .value ⟨.completed (extract_final_response response.content), messages,
          backend_calls + 1, host_calls⟩
      else
        .value ⟨.failed response.stop_reason, messages, backend_calls + 1, host_calls⟩
    else
      .attributeError "format_tools_for_claude" backend_calls host_calls

/-- `ContentStudioAgent.process_query` of version 2 (lines 79-167). -/
def process_query_v2 (responses : Nat → List ClaudeTool → ModelResponse)
    (session : ToolHost) (available_tools : List ToolDescriptor)
    (user_query : String) (max_iterations : Nat) : PyResult LoopResult :=
  process_query_v2_loop responses session available_tools 0 max_iterations
    [⟨"user", .plainText user_query⟩] 0 []

/-- The ids of the `tool_use` blocks of a content list, in order. -/
def tool_use_ids (blocks : List ContentBlock) : List String :=
  blocks.filterMap
    (fun b => match b with
      | .tool_use id _ _ => some id
      | .text _ => none)

/-- The `(id, name, input)` triples of the `tool_use` blocks of a content
list, in order. -/
def tool_use_triples (blocks : List ContentBlock) : List (String × String × String) :=
  blocks.filterMap
    (fun b => match b with
      | .tool_use id name input => some (id, name, input)
      | .text _ => none)

/-- Adjacency condition on transcript messages: whenever `m₂` is a
tool-results message, `m₁` is an assistant message of content blocks and the
`tool_use_id`s of `m₂`, in order, are exactly the `tool_use` ids of `m₁`. -/
def results_match (m₁ m₂ : Message) : Bool :=
  match m₂.content with
  | .toolResults rs =>
    m₁.role = "assistant" &&
      (match m₁.content with
       | .blocks bs => rs.map ToolResultBlock.tool_use_id = tool_use_ids bs
       | .plainText _ => false
       | .toolResults _ => false)
  | .plainText _ => true
  | .blocks _ => true

/-! ### Helper lemmas -/

/-- Specification-side concatenation of the `text` fields of the text blocks
of a content list, in arrival order. -/
def text_concat : List ContentBlock → String
  | [] => ""
  | .text t :: rest => t ++ text_concat rest
  | .tool_use _ _ _ :: rest => text_concat rest

theorem extract_final_response_aux (blocks : List ContentBlock) :
    ∀ acc : String,
      blocks.foldl
        (fun final_response block =>
          match block with
          | .text t => final_response ++ t
          | .tool_use _ _ _ => final_response) acc
        = acc ++ text_concat blocks := by
  induction blocks with
  | nil => intro acc; simp [text_concat]
  | cons b rest ih =>
    intro acc
    cases b with
    | text t => simp [List.foldl_cons, text_concat, ih, String.append_assoc]
    | tool_use id name input => simp [List.foldl_cons, text_concat, ih]

theorem extract_final_response_eq (blocks : List ContentBlock) :
    extract_final_response blocks = text_concat blocks := by
  have h := extract_final_response_aux blocks ""
  simpa [extract_final_response] using h

theorem dispatch_tools_results (session : ToolHost) (blocks : List ContentBlock) :
    (dispatch_tools session blocks).1 =
      (tool_use_triples blocks).map
        (fun t => ⟨t.1, call_tool session t.2.1 t.2.2⟩) := by
  induction blocks with
  | nil => rfl
  | cons b rest ih =>
    cases b with
    | text t =>
      simpa [dispatch_tools, tool_use_triples, List.filterMap_cons] using ih
    | tool_use id name input =>
      simp [dispatch_tools, tool_use_triples, List.filterMap_cons] at ih ⊢
      exact ih

theorem dispatch_tools_calls (session : ToolHost) (blocks : List ContentBlock) :
    (dispatch_tools session blocks).2 =
      (tool_use_triples blocks).map (fun t => (t.2.1, t.2.2)) := by
  induction blocks with
  | nil => rfl
  | cons b rest ih =>
    cases b with
    | text t =>
      simpa [dispatch_tools, tool_use_triples, List.filterMap_cons] using ih
    | tool_use id name input =>
      simp [dispatch_tools, tool_use_triples, List.filterMap_cons] at ih ⊢
      exact ih

theorem dispatch_tools_ids (session : ToolHost) (blocks : List ContentBlock) :
    (dispatch_tools session blocks).1.map ToolResultBlock.tool_use_id =
      tool_use_ids blocks := by
  rw [dispatch_tools_results]
  induction blocks with
  | nil => rfl
  | cons b rest ih =>
    cases b with
    | text t =>
      simpa [tool_use_triples, tool_use_ids, List.filterMap_cons] using ih
    | tool_use id name input =>
      simp [tool_use_triples, tool_use_ids, List.filterMap_cons] at ih ⊢
      exact ih

theorem format_tools_aux (available_tools : List ToolDescriptor) :
    ∀ acc : List ClaudeTool,
      available_tools.foldl
        (fun claude_tools tool =>
          claude_tools ++ [⟨tool.name, tool.description, tool.inputSchema⟩]) acc
        = acc ++ available_tools.map (fun t => ⟨t.name, t.description, t.inputSchema⟩) := by
  induction available_tools with
  | nil => intro acc; simp
  | cons t rest ih => intro acc; simp [List.foldl_cons, ih]

theorem process_query_loop_zero (responses : Nat → List ClaudeTool → ModelResponse)
    (session : ToolHost) (available_tools : List ToolDescriptor)
    (iteration : Nat) (messages : List Message)
    (backend_calls : Nat) (host_calls : List (String × String)) :
    process_query_loop responses session available_tools iteration 0 messages
      backend_calls host_calls = ⟨.exhausted, messages, backend_calls, host_calls⟩ := rfl

theorem process_query_loop_tool_use (responses : Nat → List ClaudeTool → ModelResponse)
    (session : ToolHost) (available_tools : List ToolDescriptor)
    (iteration remaining : Nat) (messages : List Message)
    (backend_calls : Nat) (host_calls : List (String × String))
    (h : (responses iteration (format_tools_for_claude available_tools)).stop_reason
          = "tool_use") :
    process_query_loop responses session available_tools iteration (remaining + 1) messages
      backend_calls host_calls =
    process_query_loop responses session available_tools (iteration + 1) remaining
      (messages ++
        [⟨"assistant", .blocks (responses iteration (format_tools_for_claude available_tools)).content⟩,
         ⟨"user", .toolResults (dispatch_tools session
            (responses iteration (format_tools_for_claude available_tools)).content).1⟩])
      (backend_calls + 1)
      (host_calls ++ (dispatch_tools session
          (responses iteration (format_tools_for_claude available_tools)).content).2) := by
  rw [process_query_loop]
  rcases hd : dispatch_tools session
      (responses iteration (format_tools_for_claude available_tools)).content with ⟨rs, cs⟩
  simp [h, hd]

theorem process_query_loop_end_turn (responses : Nat → List ClaudeTool → ModelResponse)
    (session : ToolHost) (available_tools : List ToolDescriptor)
    (iteration remaining : Nat) (messages : List Message)
    (backend_calls : Nat) (host_calls : List (String × String))
    (h : (responses iteration (format_tools_for_claude available_tools)).stop_reason
          = "end_turn") :
    process_query_loop responses session available_tools iteration (remaining + 1) messages
      backend_calls host_calls =
    ⟨.completed (extract_final_response
        (responses iteration (format_tools_for_claude available_tools)).content),
      messages, backend_calls + 1, host_calls⟩ := by
  rw [process_query_loop]
  simp [h]

theorem process_query_loop_other (responses : Nat → List ClaudeTool → ModelResponse)
    (session : ToolHost) (available_tools : List ToolDescriptor)
    (iteration remaining : Nat) (messages : List Message)
    (backend_calls : Nat) (host_calls : List (String × String))
    (h1 : (responses iteration (format_tools_for_claude available_tools)).stop_reason
          ≠ "tool_use")
    (h2 : (responses iteration (format_tools_for_claude available_tools)).stop_reason
          ≠ "end_turn") :
    process_query_loop responses session available_tools iteration (remaining + 1) messages
      backend_calls host_calls =
    ⟨.failed (responses iteration (format_tools_for_claude available_tools)).stop_reason,
      messages, backend_calls + 1, host_calls⟩ := by
  rw [process_query_loop]
  simp [h1, h2]

theorem process_query_loop_messages_mono (responses : Nat → List ClaudeTool → ModelResponse)
    (session : ToolHost) (available_tools : List ToolDescriptor) :
    ∀ remaining iteration (messages : List Message) backend_calls host_calls,
      ∃ suffix,
        (process_query_loop responses session available_tools iteration remaining messages
          backend_calls host_calls).messages = messages ++ suffix := by
  intro remaining
  induction remaining with
  | zero =>
    intro it msgs bc hc
    exact ⟨[], by rw [process_query_loop_zero]; simp⟩
  | succ n ih =>
    intro it msgs bc hc
    by_cases h1 : (responses it (format_tools_for_claude available_tools)).stop_reason
        = "tool_use"
    · rw [process_query_loop_tool_use _ _ _ _ _ _ _ _ h1]
      obtain ⟨s, hs⟩ := ih (it + 1)
        (msgs ++
          [⟨"assistant", .blocks (responses it (format_tools_for_claude available_tools)).content⟩,
           ⟨"user", .toolResults (dispatch_tools session
              (responses it (format_tools_for_claude available_tools)).content).1⟩])
        (bc + 1)
        (hc ++ (dispatch_tools session
            (responses it (format_tools_for_claude available_tools)).content).2)
      rw [List.append_assoc] at hs
      exact ⟨_, hs⟩
    · by_cases h2 : (responses it (format_tools_for_claude available_tools)).stop_reason
          = "end_turn"
      · exact ⟨[], by rw [process_query_loop_end_turn _ _ _ _ _ _ _ _ h2]; simp⟩
      · exact ⟨[], by rw [process_query_loop_other _ _ _ _ _ _ _ _ h1 h2]; simp⟩

theorem process_query_loop_backend_calls_le (responses : Nat → List ClaudeTool → ModelResponse)
    (session : ToolHost) (available_tools : List ToolDescriptor) :
    ∀ remaining iteration (messages : List Message) backend_calls host_calls,
      (process_query_loop responses session available_tools iteration remaining messages
        backend_calls host_calls).backend_calls ≤ backend_calls + remaining := by
  intro remaining
  induction remaining with
  | zero =>
    intro it msgs bc hc
    rw [process_query_loop_zero]
    show bc ≤ bc + 0
    omega
  | succ n ih =>
    intro it msgs bc hc
    by_cases h1 : (responses it (format_tools_for_claude available_tools)).stop_reason
        = "tool_use"
    · rw [process_query_loop_tool_use _ _ _ _ _ _ _ _ h1]
      calc _ ≤ (bc + 1) + n := ih _ _ _ _
        _ = bc + (n + 1) := by omega
    · by_cases h2 : (responses it (format_tools_for_claude available_tools)).stop_reason
          = "end_turn"
      · rw [process_query_loop_end_turn _ _ _ _ _ _ _ _ h2]
        show bc + 1 ≤ bc + (n + 1)
        omega
      · rw [process_query_loop_other _ _ _ _ _ _ _ _ h1 h2]
        show bc + 1 ≤ bc + (n + 1)
        omega

theorem process_query_loop_all_tool_use (responses : Nat → List ClaudeTool → ModelResponse)
    (session : ToolHost) (available_tools : List ToolDescriptor) :
    ∀ remaining iteration (messages : List Message) backend_calls host_calls,
      (∀ i, i < remaining →
        (responses (iteration + i) (format_tools_for_claude available_tools)).stop_reason
          = "tool_use") →
      (process_query_loop responses session available_tools iteration remaining messages
        backend_calls host_calls).outcome = .exhausted := by
  intro remaining
  induction remaining with
  | zero =>
    intro it msgs bc hc _
    rw [process_query_loop_zero]
  | succ n ih =>
    intro it msgs bc hc h
    have h0 : (responses it (format_tools_for_claude available_tools)).stop_reason
        = "tool_use" := by
      have := h 0 (Nat.succ_pos n)
      simpa using this
    rw [process_query_loop_tool_use _ _ _ _ _ _ _ _ h0]
    apply ih
    intro i hi
    have := h (i + 1) (Nat.succ_lt_succ hi)
    have harith : it + 1 + i = it + (i + 1) := by omega
    rw [harith]
    exact this

theorem results_match_of_blocks (m : Message) (role : String) (bs : List ContentBlock) :
    results_match m ⟨role, .blocks bs⟩ = true := rfl

theorem results_match_dispatch_pair (session : ToolHost) (bs : List ContentBlock) :
    results_match ⟨"assistant", .blocks bs⟩
      ⟨"user", .toolResults (dispatch_tools session bs).1⟩ = true := by
  simp [results_match, dispatch_tools_ids]

theorem process_query_loop_chain (responses : Nat → List ClaudeTool → ModelResponse)
    (session : ToolHost) (available_tools : List ToolDescriptor) :
    ∀ remaining iteration (messages : List Message) backend_calls host_calls,
      List.Chain' (fun a b => results_match a b = true) messages →
      List.Chain' (fun a b => results_match a b = true)
        (process_query_loop responses session available_tools iteration remaining messages
          backend_calls host_calls).messages := by
  intro remaining
  induction remaining with
  | zero =>
    intro it msgs bc hc h
    rw [process_query_loop_zero]
    exact h
  | succ n ih =>
    intro it msgs bc hc h
    by_cases h1 : (responses it (format_tools_for_claude available_tools)).stop_reason
        = "tool_use"
    · rw [process_query_loop_tool_use _ _ _ _ _ _ _ _ h1]
      apply ih
      apply List.Chain'.append h
      · exact List.chain'_cons.mpr
          ⟨results_match_dispatch_pair session _, List.chain'_singleton _⟩
      · intro x hx y hy
        simp only [List.head?_cons, Option.mem_def, Option.some.injEq] at hy
        rw [← hy]
        exact results_match_of_blocks x "assistant" _
    · by_cases h2 : (responses it (format_tools_for_claude available_tools)).stop_reason
          = "end_turn"
      · rw [process_query_loop_end_turn _ _ _ _ _ _ _ _ h2]
        exact h
      · rw [process_query_loop_other _ _ _ _ _ _ _ _ h1 h2]
        exact h

/-! ### Concrete instances used by the witnesses -/

/-- A one-tool catalog like the QR-code tool of the demo. -/
def demo_tools : List ToolDescriptor :=
  [⟨"generate_qr_code", "Generate a QR code image", "\x7b\"type\": \"object\"\x7d"⟩]

/-- A tool host whose every call succeeds with a text-bearing result. -/
def demo_host : ToolHost :=
  fun _ _ => .ok ⟨some [.textItem "qr-created"], "CallToolResult"⟩

/-- A tool host whose every call raises an exception. -/
def raising_host : ToolHost :=
  fun _ _ => .raised "Invalid color argument"

/-- A tool host returning a successful result whose first content element is
not text-bearing (e.g. an MCP `ImageContent` block) while a later element
is. -/
def mixed_content_host : ToolHost :=
  fun _ _ =>
    .ok ⟨some [.nonText "'ImageContent' object has no attribute 'text'",
               .textItem "hello"],
         "CallToolResult(content=[ImageContent, TextContent])"⟩

/-- A backend that requests one QR-code tool use on every turn. -/
def tool_use_responses : Nat → List ClaudeTool → ModelResponse :=
  fun _ _ =>
    ⟨"tool_use",
     [.tool_use "toolu_01" "generate_qr_code" "\x7b\"url\": \"https://example.com\"\x7d"]⟩

/-- A backend that answers with final text on every turn. -/
def end_turn_responses : Nat → List ClaudeTool → ModelResponse :=
  fun _ _ => ⟨"end_turn", [.text "Here is your QR code."]⟩

/-- A backend that stops with the unhandled reason `max_tokens` on every
turn. -/
def max_tokens_responses : Nat → List ClaudeTool → ModelResponse :=
  fun _ _ => ⟨"max_tokens", [.text "truncated"]⟩

/-! ### Claim theorems -/

/-- C1: in every transcript produced by `process_query`, each tool-results
message immediately follows an assistant message of content blocks, and its
`tool_result` entries list, in order, exactly one entry per `tool_use` block
of that assistant message, each entry's `tool_use_id` echoing the block's
`id` — so no result is appended without a matching id and no `tool_use`
block is left unanswered; the transcript starts with the user message, so a
tool-results message never appears without its preceding assistant
message. -/
theorem processQuery_tool_results_correlate
    (responses : Nat → List ClaudeTool → ModelResponse) (session : ToolHost)
    (available_tools : List ToolDescriptor) (user_query : String) (max_iterations : Nat) :
    List.Chain' (fun a b => results_match a b = true)
      (process_query responses session available_tools user_query
        max_iterations).messages ∧
    (process_query responses session available_tools user_query
        max_iterations).messages.head? = some ⟨"user", .plainText user_query⟩ := by
  constructor
  · apply process_query_loop_chain
    exact List.chain'_singleton _
  · obtain ⟨s, hs⟩ := process_query_loop_messages_mono responses session available_tools
      max_iterations 0 [⟨"user", .plainText user_query⟩] 0 []
    unfold process_query
    rw [hs]
    rfl

/-- C2: whenever a tool invocation fails — because the host invocation itself
raises (transport error, tool-side exception), or because payload extraction
raises on a successful but malformed result (the duck-typed
`result.content[0].text` access on a non-text first element) — `call_tool`
does not propagate the exception `e`: it returns the serialized
`\x7bstatus: "error", message: ...\x7d` payload as the result string, and the
dispatch loop of `process_query` collects that payload as an ordinary
`tool_result` entry (the functions are total, so no tool failure escapes
`process_query`). -/
theorem callTool_absorbs_failures (session : ToolHost) (name input e id : String)
    (h : session name input = .raised e ∨
         ∃ (result : McpCallResult) (rest : List McpContentItem),
           session name input = .ok result ∧
           result.content = some (.nonText e :: rest)) :
    call_tool session name input = error_payload e ∧
    dispatch_tools session [.tool_use id name input] =
      ([⟨id, error_payload e⟩], [(name, input)]) := by
  obtain he | ⟨result, rest, h1, h2⟩ := h
  · exact ⟨by simp [call_tool, he], by simp [dispatch_tools, call_tool, he]⟩
  · exact ⟨by simp [call_tool, h1, h2], by simp [dispatch_tools, call_tool, h1, h2]⟩

theorem callTool_absorbs_failures_witness :
    (raising_host "generate_qr_code" "\x7b\x7d" = .raised "Invalid color argument" ∧
     call_tool raising_host "generate_qr_code" "\x7b\x7d" =
       error_payload "Invalid color argument" ∧
     dispatch_tools raising_host [.tool_use "toolu_01" "generate_qr_code" "\x7b\x7d"] =
       ([⟨"toolu_01", error_payload "Invalid color argument"⟩],
        [("generate_qr_code", "\x7b\x7d")])) ∧
    (mixed_content_host "generate_qr_code" "\x7b\x7d" =
       .ok ⟨some [.nonText "'ImageContent' object has no attribute 'text'",
                  .textItem "hello"],
            "CallToolResult(content=[ImageContent, TextContent])"⟩ ∧
     call_tool mixed_content_host "generate_qr_code" "\x7b\x7d" =
       error_payload "'ImageContent' object has no attribute 'text'" ∧
     dispatch_tools mixed_content_host
        [.tool_use "toolu_02" "generate_qr_code" "\x7b\x7d"] =
       ([⟨"toolu_02", error_payload "'ImageContent' object has no attribute 'text'"⟩],
        [("generate_qr_code", "\x7b\x7d")])) := by
  refine ⟨⟨rfl, ?_, ?_⟩, rfl, ?_, ?_⟩
  · exact (callTool_absorbs_failures raising_host "generate_qr_code" "\x7b\x7d"
      "Invalid color argument" "toolu_01" (Or.inl rfl)).1
  · exact (callTool_absorbs_failures raising_host "generate_qr_code" "\x7b\x7d"
      "Invalid color argument" "toolu_01" (Or.inl rfl)).2
  · exact (callTool_absorbs_failures mixed_content_host "generate_qr_code" "\x7b\x7d"
      "'ImageContent' object has no attribute 'text'" "toolu_02"
      (Or.inr ⟨_, [.textItem "hello"], rfl, rfl⟩)).1
  · exact (callTool_absorbs_failures mixed_content_host "generate_qr_code" "\x7b\x7d"
      "'ImageContent' object has no attribute 'text'" "toolu_02"
      (Or.inr ⟨_, [.textItem "hello"], rfl, rfl⟩)).2

/-- C8: `format_tools_for_claude` is a pure projection of the cached catalog:
its output maps each descriptor, in catalog order, to the Claude-format
record `\x7bname, description, input_schema\x7d`, and two calls on the same
catalog value (no intervening re-discovery) yield identical output — the
function reads no other state and mutates nothing. -/
theorem formatTools_pure_projection (available_tools : List ToolDescriptor) :
    format_tools_for_claude available_tools =
      available_tools.map (fun t => ⟨t.name, t.description, t.inputSchema⟩) ∧
    format_tools_for_claude available_tools = format_tools_for_claude available_tools := by
  refine ⟨?_, rfl⟩
  have h := format_tools_aux available_tools []
  simpa [format_tools_for_claude] using h

/-- C9: `process_query` builds its transcript fresh, holding exactly the one
user message carrying the query text (the embedding receives no transcript
from outside, so nothing is carried over between queries), and the reasoning
loop only appends: the transcript it returns extends any starting transcript
by a suffix, so no message already present is ever mutated or removed. -/
theorem processQuery_transcript_append_only
    (responses : Nat → List ClaudeTool → ModelResponse) (session : ToolHost)
    (available_tools : List ToolDescriptor) (user_query : String) (max_iterations : Nat) :
    (∃ rest, (process_query responses session available_tools user_query
        max_iterations).messages = ⟨"user", .plainText user_query⟩ :: rest) ∧
    (∀ iteration remaining (messages : List Message) backend_calls host_calls,
      ∃ suffix,
        (process_query_loop responses session available_tools iteration remaining messages
          backend_calls host_calls).messages = messages ++ suffix) := by
  constructor
  · obtain ⟨s, hs⟩ := process_query_loop_messages_mono responses session available_tools
      max_iterations 0 [⟨"user", .plainText user_query⟩] 0 []
    exact ⟨s, by simpa [process_query] using hs⟩
  · intro it rem msgs bc hc
    exact process_query_loop_messages_mono responses session available_tools rem it msgs bc hc

/-- C3: `process_query` is a total function that issues at most
`max_iterations` model-backend requests; when every one of the
`max_iterations` consulted responses signals `tool_use` the outcome is the
terminal value `exhausted` (a returned value, not an exception); and with
`max_iterations = 1` and a `tool_use` response the final transcript is
exactly the initial user message followed by one assistant message and one
tool-results message. -/
theorem processQuery_iteration_budget
    (responses : Nat → List ClaudeTool → ModelResponse) (session : ToolHost)
    (available_tools : List ToolDescriptor) (user_query : String) (max_iterations : Nat) :
    (process_query responses session available_tools user_query
        max_iterations).backend_calls ≤ max_iterations ∧
    ((∀ i, i < max_iterations →
        (responses i (format_tools_for_claude available_tools)).stop_reason = "tool_use") →
      (process_query responses session available_tools user_query
        max_iterations).outcome = .exhausted) ∧
    ((responses 0 (format_tools_for_claude available_tools)).stop_reason = "tool_use" →
      (process_query responses session available_tools user_query 1).messages =
        [⟨"user", .plainText user_query⟩,
         ⟨"assistant", .blocks
            (responses 0 (format_tools_for_claude available_tools)).content⟩,
         ⟨"user", .toolResults (dispatch_tools session
            (responses 0 (format_tools_for_claude available_tools)).content).1⟩]) := by
  refine ⟨?_, ?_, ?_⟩
  · have h := process_query_loop_backend_calls_le responses session available_tools
      max_iterations 0 [⟨"user", .plainText user_query⟩] 0 []
    simpa [process_query] using h
  · intro h
    apply process_query_loop_all_tool_use
    intro i hi
    simpa using h i hi
  · intro h
    unfold process_query
    rw [process_query_loop_tool_use _ _ _ _ _ _ _ _ h, process_query_loop_zero]
    rfl

theorem processQuery_iteration_budget_witness :
    (process_query tool_use_responses demo_host demo_tools
        "Generate a QR code for https://example.com" 1).backend_calls ≤ 1 ∧
    (process_query tool_use_responses demo_host demo_tools
        "Generate a QR code for https://example.com" 1).outcome = .exhausted ∧
    (process_query tool_use_responses demo_host demo_tools
        "Generate a QR code for https://example.com" 1).messages =
      [⟨"user", .plainText "Generate a QR code for https://example.com"⟩,
       ⟨"assistant", .blocks
          (tool_use_responses 0 (format_tools_for_claude demo_tools)).content⟩,
       ⟨"user", .toolResults (dispatch_tools demo_host
          (tool_use_responses 0 (format_tools_for_claude demo_tools)).content).1⟩] := by
  obtain ⟨h1, h2, h3⟩ := processQuery_iteration_budget tool_use_responses demo_host
    demo_tools "Generate a QR code for https://example.com" 1
  exact ⟨h1, h2 (fun i _ => rfl), h3 rfl⟩

/-- C4: whenever the response consulted in an iteration carries the
`end_turn` stop signal, the loop returns at once with outcome `completed`
holding the concatenation, in arrival order, of the response's text blocks;
the transcript and the tool-host invocation trace are returned unchanged (no
tool is invoked, nothing further is appended) and only this turn's backend
request is counted. -/
theorem processQuery_end_turn_completes
    (responses : Nat → List ClaudeTool → ModelResponse) (session : ToolHost)
    (available_tools : List ToolDescriptor) (iteration remaining : Nat)
    (messages : List Message) (backend_calls : Nat) (host_calls : List (String × String))
    (h : (responses iteration (format_tools_for_claude available_tools)).stop_reason
          = "end_turn") :
    process_query_loop responses session available_tools iteration (remaining + 1) messages
      backend_calls host_calls =
    ⟨.completed (text_concat
        (responses iteration (format_tools_for_claude available_tools)).content),
      messages, backend_calls + 1, host_calls⟩ := by
  rw [process_query_loop_end_turn _ _ _ _ _ _ _ _ h, extract_final_response_eq]

theorem processQuery_end_turn_completes_witness :
    process_query end_turn_responses demo_host demo_tools "hello" 5 =
      ⟨.completed "Here is your QR code.", [⟨"user", .plainText "hello"⟩], 1, []⟩ := by
  have h := processQuery_end_turn_completes end_turn_responses demo_host demo_tools
    0 4 [⟨"user", .plainText "hello"⟩] 0 [] rfl
  unfold process_query
  rw [h]
  simp [text_concat]

/-- C5: in a `tool_use` turn, the tool host is invoked once per `tool_use`
block of the just-appended assistant message, in the order the blocks appear
(the invocation trace lists exactly those `(name, input)` pairs in block
order); the collected `tool_result` entries preserve that same order, each
pairing the block's id with the corresponding `call_tool` output; and the
whole batch is appended to the transcript as one single user-role message —
together with the assistant message, exactly two messages are appended in
the turn, never a partial subset. -/
theorem processQuery_dispatch_order_atomic
    (responses : Nat → List ClaudeTool → ModelResponse) (session : ToolHost)
    (available_tools : List ToolDescriptor) (iteration remaining : Nat)
    (messages : List Message) (backend_calls : Nat) (host_calls : List (String × String))
    (h : (responses iteration (format_tools_for_claude available_tools)).stop_reason
          = "tool_use") :
    (dispatch_tools session
        (responses iteration (format_tools_for_claude available_tools)).content).2 =
      (tool_use_triples
        (responses iteration (format_tools_for_claude available_tools)).content).map
        (fun t => (t.2.1, t.2.2)) ∧
    (dispatch_tools session
        (responses iteration (format_tools_for_claude available_tools)).content).1 =
      (tool_use_triples
        (responses iteration (format_tools_for_claude available_tools)).content).map
        (fun t => ⟨t.1, call_tool session t.2.1 t.2.2⟩) ∧
    process_query_loop responses session available_tools iteration (remaining + 1) messages
      backend_calls host_calls =
    process_query_loop responses session available_tools (iteration + 1) remaining
      (messages ++
        [⟨"assistant", .blocks
            (responses iteration (format_tools_for_claude available_tools)).content⟩,
         ⟨"user", .toolResults (dispatch_tools session
            (responses iteration (format_tools_for_claude available_tools)).content).1⟩])
      (backend_calls + 1)
      (host_calls ++ (dispatch_tools session
          (responses iteration (format_tools_for_claude available_tools)).content).2) :=
  ⟨dispatch_tools_calls session _, dispatch_tools_results session _,
    process_query_loop_tool_use responses session available_tools iteration remaining
      messages backend_calls host_calls h⟩

theorem processQuery_dispatch_order_atomic_witness :
    (dispatch_tools demo_host
        (tool_use_responses 0 (format_tools_for_claude demo_tools)).content).2 =
      [("generate_qr_code", "\x7b\"url\": \"https://example.com\"\x7d")] ∧
    (dispatch_tools demo_host
        (tool_use_responses 0 (format_tools_for_claude demo_tools)).content).1 =
      [⟨"toolu_01", "qr-created"⟩] ∧
    process_query_loop tool_use_responses demo_host demo_tools 0 1
      [⟨"user", .plainText "hi"⟩] 0 [] =
    process_query_loop tool_use_responses demo_host demo_tools 1 0
      ([⟨"user", .plainText "hi"⟩] ++
        [⟨"assistant", .blocks
            (tool_use_responses 0 (format_tools_for_claude demo_tools)).content⟩,
         ⟨"user", .toolResults (dispatch_tools demo_host
            (tool_use_responses 0 (format_tools_for_claude demo_tools)).content).1⟩])
      1
      ([] ++ (dispatch_tools demo_host
          (tool_use_responses 0 (format_tools_for_claude demo_tools)).content).2) := by
  obtain ⟨h1, h2, h3⟩ := processQuery_dispatch_order_atomic tool_use_responses demo_host
    demo_tools 0 0 [⟨"user", .plainText "hi"⟩] 0 [] rfl
  exact ⟨by rw [h1]; rfl, by rw [h2]; rfl, h3⟩

/-- C6: whenever the response consulted in an iteration carries a stop signal
other than `tool_use` and `end_turn` (for example `max_tokens`), the loop
returns at once with outcome `failed` carrying the raw signal value; the
transcript and the tool-host invocation trace are returned unchanged (no
retry, no tool invoked, nothing appended) and only this turn's backend
request is counted. -/
theorem processQuery_unrecognized_stop_fails
    (responses : Nat → List ClaudeTool → ModelResponse) (session : ToolHost)
    (available_tools : List ToolDescriptor) (iteration remaining : Nat)
    (messages : List Message) (backend_calls : Nat) (host_calls : List (String × String))
    (h1 : (responses iteration (format_tools_for_claude available_tools)).stop_reason
          ≠ "tool_use")
    (h2 : (responses iteration (format_tools_for_claude available_tools)).stop_reason
          ≠ "end_turn") :
    process_query_loop responses session available_tools iteration (remaining + 1) messages
      backend_calls host_calls =
    ⟨.failed (responses iteration (format_tools_for_claude available_tools)).stop_reason,
      messages, backend_calls + 1, host_calls⟩ :=
  process_query_loop_other responses session available_tools iteration remaining messages
    backend_calls host_calls h1 h2

theorem processQuery_unrecognized_stop_fails_witness :
    process_query max_tokens_responses demo_host demo_tools "hi" 3 =
      ⟨.failed "max_tokens", [⟨"user", .plainText "hi"⟩], 1, []⟩ := by
  have h := processQuery_unrecognized_stop_fails max_tokens_responses demo_host demo_tools
    0 2 [⟨"user", .plainText "hi"⟩] 0 [] (by decide) (by decide)
  unfold process_query
  rw [h]
  rfl

set_option maxRecDepth 16384

/-- C7 counterexample: on a successful result whose first content element is
not text-bearing but whose second is (`text = "hello"`), `call_tool` does not
return the payload of the first text-bearing element — the duck-typed
`result.content[0].text` access raises `AttributeError`, the `except` branch
catches it, and the serialized error payload is returned instead (nor is the
stringified whole result ever used here). -/
theorem callTool_first_text_bearing_counterexample :
    call_tool mixed_content_host "generate_qr_code" "\x7b\x7d" ≠ "hello" ∧
    call_tool mixed_content_host "generate_qr_code" "\x7b\x7d" =
      error_payload "'ImageContent' object has no attribute 'text'" := by
  constructor
  · decide
  · rfl

/-- C7 (amended): for every successful tool-host invocation, `call_tool`
returns the textual payload of the first element of the result's content
list when that list is non-empty and its first element bears text; when the
result has no content attribute or the list is empty it returns the
stringified representation of the whole result; and when the first element
bears no text, the attribute access raises inside the `try` and `call_tool`
returns the serialized error payload — in no case does `call_tool` itself
raise on a successful result. -/
theorem callTool_success_payload_extraction (session : ToolHost)
    (name input : String) (result : McpCallResult)
    (h : session name input = .ok result) :
    call_tool session name input =
      (match result.content with
       | some (.textItem t :: _) => t
       | some (.nonText m :: _) => error_payload m
       | some [] => result.toString
       | none => result.toString) := by
  rcases result with ⟨c, s⟩
  simp only [call_tool, h]
  rcases c with _ | ⟨_ | ⟨first, rest⟩⟩
  · rfl
  · rfl
  · cases first <;> rfl

theorem callTool_success_payload_extraction_witness :
    demo_host "generate_qr_code" "\x7b\x7d" =
      .ok ⟨some [.textItem "qr-created"], "CallToolResult"⟩ ∧
    call_tool demo_host "generate_qr_code" "\x7b\x7d" = "qr-created" := by
  refine ⟨rfl, ?_⟩
  exact callTool_success_payload_extraction demo_host "generate_qr_code" "\x7b\x7d"
    ⟨some [.textItem "qr-created"], "CallToolResult"⟩ rfl

/-- C10: the `ContentStudioAgent` class of
`src/Python_Application/content_studio_client.py` defines no
`format_tools_for_claude` attribute, yet its `process_query` calls
`self.format_tools_for_claude()` at the top of every iteration; hence for
every query and every `max_iterations ≥ 1` the call raises `AttributeError`
for that name before any model-backend request is issued (0 requests) and
before any tool is invoked (empty invocation trace). -/
theorem processQueryV2_attribute_error
    (responses : Nat → List ClaudeTool → ModelResponse) (session : ToolHost)
    (available_tools : List ToolDescriptor) (user_query : String) (max_iterations : Nat)
    (h : 1 ≤ max_iterations) :
    v2_agent_attributes.contains "format_tools_for_claude" = false ∧
    process_query_v2 responses session available_tools user_query max_iterations =
      .attributeError "format_tools_for_claude" 0 [] := by
  refine ⟨by decide, ?_⟩
  obtain ⟨m, rfl⟩ : ∃ m, max_iterations = m + 1 := ⟨max_iterations - 1, by omega⟩
  unfold process_query_v2
  rw [process_query_v2_loop]
  rw [if_neg]
  intro hc
  exact absurd hc (by decide)

theorem processQueryV2_attribute_error_witness :
    v2_agent_attributes.contains "format_tools_for_claude" = false ∧
    process_query_v2 end_turn_responses demo_host demo_tools
        "Generate a QR code" 10 =
      .attributeError "format_tools_for_claude" 0 [] :=
  processQueryV2_attribute_error end_turn_responses demo_host demo_tools
    "Generate a QR code" 10 (by decide)
